import Mathlib

/-!
Verification of the DIDL-Lite parsing and upgrade pipeline of the SoCo
repository, as a shallow embedding of `soco/data_structures_entry.py` and
`soco/music_services/data_structures_entry.py`.

The XML layer is external to this core: `from_didl_string` is modelled from
the point where the document tree has been built, i.e. it consumes the list
of direct children of the `<DIDL-Lite>` root.  Each child element is
modelled by its tag and the text that `elt.findtext(ns_tag('upnp',
'class'))` would return (`none` when no `upnp:class` child exists).

The DIDL object classes themselves live in modules that are not part of the
parsing core; the parser only calls `cls.from_element(elt)` on whatever
class the registry holds, so constructors are modelled as arbitrary
functions from elements to objects (fallible, since `from_element` may
raise `DIDLMetadataError`).
-/

namespace SoCo

/-- A resource of a DIDL object: a playable endpoint with a URI and a
protocol-info descriptor. -/
structure DidlResource where
  uri : String
  protocol_info : String
deriving Repr, DecidableEq

/-- A constructed DIDL object.  `className` is the Python
`__class__.__name__` of the object (the variant name), `title` is `none`
when the object has no `title` attribute (accessing it would raise
`AttributeError`), and the remaining fields are the attributes that the
music-service upgrade reads or writes. -/
structure DidlObject where
  className : String
  title : Option String
  resources : List DidlResource
  item_id : String
  desc : String
  uri : Option String
deriving Repr, DecidableEq

/-- Errors that the parsing pipeline can raise.  `didlMetadataError` models
`DIDLMetadataError(msg)`; `typeError` models the Python `TypeError` raised
by `'.#' in item_class` when `findtext` returned `None`. -/
inductive PyErr where
  | didlMetadataError (msg : String)
  | typeError (msg : String)
deriving Repr, DecidableEq

/-- A direct child of the `<DIDL-Lite>` root element, as seen by
`from_didl_string`: its tag (namespace-qualified tags keep the
`{namespace}` text in front, as in ElementTree) and the text of its
`upnp:class` child as returned by `elt.findtext(ns_tag('upnp', 'class'))`. -/
structure Element where
  tag : String
  upnpClass : Option String
deriving Repr, DecidableEq

/-- A constructor capability held in `_DIDL_CLASS_TO_CLASS`: the behaviour
of `cls.from_element` for the registered class `cls`. -/
def Ctor : Type := Element → Except PyErr DidlObject

/-- The class registry `_DIDL_CLASS_TO_CLASS`, modelled as an association
list from class-identifier strings to constructor capabilities. -/
def Registry : Type := List (String × Ctor)

/-- Python `dict` lookup on the association-list model (identifiers are
registered at most once, so the first match is the binding). -/
def dictLookup {α : Type} : List (String × α) → String → Option α
  | [], _ => none
  | (k, v) :: rest, key => if k = key then some v else dictLookup rest key

/-- First position (in characters) at which `pat` occurs in `hay`, like
Python `str.find` for a found pattern; `none` when absent. -/
def listFind (hay pat : List Char) (i : Nat) : Option Nat :=
  match hay with
  | [] => if pat.isEmpty then some i else none
  | _ :: rest =>
    if pat.isPrefixOf hay then some i else listFind rest pat (i + 1)

/-- Python `str.find` (first occurrence, character index), with
`pat in s` holding exactly when the result is not `none`. -/
def strFind (s pat : String) : Option Nat :=
  listFind s.data pat.data 0

/-- Python `str.endswith`: character-wise suffix test. -/
def strEndsWith (s suf : String) : Bool :=
  suf.data.isSuffixOf s.data

/-- Python `str.startswith`: character-wise prefix test. -/
def strStartsWith (s pre : String) : Bool :=
  pre.data.isPrefixOf s.data

/-- Lines 47-48 of `data_structures_entry.py`:
`if '.#' in item_class: item_class = item_class[:item_class.find('.#')]`. -/
def stripUnofficial (item_class : String) : String :=
  match strFind item_class ".#" with
  | some i => String.mk (item_class.data.take i)
  | none => item_class

/-- Line 42 of `data_structures_entry.py`: the test
`elt.tag.endswith('item') or elt.tag.endswith('container')` selecting the
construction branch. -/
def classifyItemish (elt : Element) : Bool :=
  strEndsWith elt.tag "item" || strEndsWith elt.tag "container"

/-- Resolution of a raw class identifier, as performed inline by
`from_didl_string`: strip the unofficial `.#` suffix, then look the result
up in `_DIDL_CLASS_TO_CLASS`. -/
def resolveClass (reg : Registry) (raw : String) : Option Ctor :=
  dictLookup reg (stripUnofficial raw)

/-- Lines 58-59 of `data_structures_entry.py`: the loop
`for upgrade in _UPGRADE_FUNCTIONS: item = upgrade(item)`. -/
def runUpgrades : List (DidlObject → DidlObject) → DidlObject → DidlObject
  | [], item => item
  | upgrade :: rest, item => runUpgrades rest (upgrade item)

/-- Lines 43-61 of `data_structures_entry.py`, the body of the `item`/
`container` branch for one element: extract `upnp:class` text, strip the
unofficial suffix, resolve in the registry (`KeyError` becomes
`DIDLMetadataError("Unknown UPnP class: ...")`), construct via
`cls.from_element`, and thread the result through `_UPGRADE_FUNCTIONS`. -/
def buildChild (reg : Registry) (ups : List (DidlObject → DidlObject))
    (elt : Element) : Except PyErr DidlObject :=
  match elt.upnpClass with
  | none => .error (.typeError "argument of type NoneType is not iterable")
  | some raw =>
    let item_class := stripUnofficial raw
    match dictLookup reg item_class with
    | none => .error (.didlMetadataError ("Unknown UPnP class: " ++ item_class))
    | some cls =>
      match cls elt with
      | .error e => .error e
      | .ok item => .ok (runUpgrades ups item)

/-- The parser `from_didl_string` (lines 39-73 of `data_structures_entry.py`) from the
point where the XML tree exists: iterate over the direct children of the
root, construct and upgrade every element whose tag ends with `item` or
`container`, raise `DIDLMetadataError("Illegal child of DIDL element:
<tag>")` for every other tag, and return the accumulated list in document
order.  A raised error aborts the whole parse with no partial list. -/
def from_didl_list (reg : Registry) (ups : List (DidlObject → DidlObject)) :
    List Element → Except PyErr (List DidlObject)
  | [] => .ok []
  | elt :: rest =>
    if classifyItemish elt then
      match buildChild reg ups elt with
      | .error e => .error e
      | .ok item =>
        match from_didl_list reg ups rest with
        | .error e => .error e
        | .ok items => .ok (item :: items)
    else
      .error (.didlMetadataError ("Illegal child of DIDL element: <" ++ elt.tag ++ ">"))

/-! ### The music-service upgrade
(`soco/music_services/data_structures_entry.py`)

`attempt_datastructure_upgrade` uses `urlparse` from the Python standard
library (re-exported by `soco.compat`); only the `path` component of the
result is consumed, so `urlparsePath` embeds the stdlib's `urlsplit`
pipeline for the path: strip a leading `scheme:` (a nonempty run of
letters/digits/`+`/`-`/`.` before the first colon), consume a
`//authority` part up to the next `/`, `?` or `#`, and cut the remainder
at the first `#` (fragment) or `?` (query).  Parameter splitting on `;`
does not apply: the schemes involved are not in `uses_params`. -/

/-- Characters admissible in a URL scheme (Python `scheme_chars`). -/
def schemeChar (c : Char) : Bool :=
  c.isAlpha || c.isDigit || c == '+' || c == '-' || c == '.'

/-- Split a character list at the first occurrence of `c`, dropping the
occurrence; `none` when `c` is absent. -/
def splitOnFirst (c : Char) : List Char → Option (List Char × List Char)
  | [] => none
  | x :: xs =>
    if x == c then some ([], xs)
    else
      match splitOnFirst c xs with
      | some (a, b) => some (x :: a, b)
      | none => none

/-- Split a character list at the last occurrence of `c`, dropping the
occurrence; `none` when `c` is absent. -/
def splitOnLast (c : Char) : List Char → Option (List Char × List Char)
  | [] => none
  | x :: xs =>
    match splitOnLast c xs with
    | some (a, b) => some (x :: a, b)
    | none => if x == c then some ([], xs) else none

/-- Remove a leading `scheme:` when the text before the first colon is a
nonempty run of scheme characters (`urlsplit`'s scheme test). -/
def stripScheme (cs : List Char) : List Char :=
  match splitOnFirst ':' cs with
  | some (b :: bs, after) =>
    if (b :: bs).all schemeChar then after else cs
  | _ => cs

/-- After `//`, the authority extends up to the next `/`, `?` or `#`
(`urlsplit`'s `_splitnetloc`); everything from that delimiter on stays in
the URL remainder. -/
def dropNetlocChars : List Char → List Char
  | [] => []
  | c :: cs =>
    if c == '/' || c == '?' || c == '#' then c :: cs else dropNetlocChars cs

/-- Consume a `//authority` part when present. -/
def stripNetloc : List Char → List Char
  | '/' :: '/' :: rest => dropNetlocChars rest
  | cs => cs

/-- Cut the remainder at the first fragment (`#`) or query (`?`) mark. -/
def takeUntilStop : List Char → List Char
  | [] => []
  | c :: cs => if c == '#' || c == '?' then [] else c :: takeUntilStop cs

/-- The `path` component of `urlparse(url)` for the schemes this code
feeds it. -/
def urlparsePath (url : String) : String :=
  String.mk (takeUntilStop (stripNetloc (stripScheme url.data)))

/-- Line 46 of `music_services/data_structures_entry.py`:
`path.rsplit('.', 1)[0]` — drop a trailing `.extension` segment when a dot
is present. -/
def rsplitDotHead (path : String) : String :=
  match splitOnLast '.' path.data with
  | some (a, _) => String.mk a
  | none => path

/-- Lines 24-26 of `music_services/data_structures_entry.py`: the
deliberately incomplete `DIDL_NAME_TO_QUALIFIED_MS_NAME` mapping table. -/
def DIDL_NAME_TO_QUALIFIED_MS_NAME : List (String × String) :=
  [("DidlMusicTrack", "MediaMetadataTrack")]

/-- Modelled from the spec: `get_class` and the music-service
data-structure classes live in `music_services/data_structures.py` and
`music_services/music_service.py`, outside the files under verification.
The spec says the replacement object is "a service-specific variant looked
up by mapping the current variant's name to a qualified service-variant
name", built from the derived item id, the descriptor computed from the
URI, the carried-over resource sequence, the URI, and the metadata
dictionary (which carries the title exactly when the original had one).
`msConstruct qname` models `get_class(qname)(item_id=..., desc=...,
resources=..., uri=..., metadata_dict=...)`. -/
def msConstruct (qname : String) (item_id descriptor : String)
    (resources : List DidlResource) (uri : String) (title : Option String) :
    DidlObject :=
  { className := qname
    title := title
    resources := resources
    item_id := item_id
    desc := descriptor
    uri := some uri }

/-- The upgrade `attempt_datastructure_upgrade` (lines 29-88 of
`music_services/data_structures_entry.py`).  `descFromUri` stands for the
external `desc_from_uri` helper from `music_services/music_service.py`
(not under verification); the function is parametric in it, and no claim
constrains the descriptor value.  An empty resource list models the caught
`IndexError`; a missing `DIDL_NAME_TO_QUALIFIED_MS_NAME` entry models the
caught `KeyError` (logged as a warning); both return the item unchanged. -/
def attempt_datastructure_upgrade (descFromUri : String → String)
    (didl_item : DidlObject) : DidlObject :=
  match didl_item.resources with
  | [] => didl_item
  | resource :: _ =>
    if strStartsWith resource.uri "x-sonos-http" then
      let uri := resource.uri
      let path := urlparsePath uri
      let path := rsplitDotHead path
      let item_id := "11111111" ++ path
      match dictLookup DIDL_NAME_TO_QUALIFIED_MS_NAME didl_item.className with
      | none => didl_item
      | some qname =>
        msConstruct qname item_id (descFromUri uri) didl_item.resources uri
          didl_item.title
    else
      didl_item

/-! ### Verification helpers: concrete test data and loop lemmas -/

/-- Line 92 of `music_services/data_structures_entry.py`: after the module
import, the upgrade registry `_UPGRADE_FUNCTIONS` holds exactly the one
registered transformation (parametric in the external `desc_from_uri`). -/
def UPGRADE_FUNCTIONS (descFromUri : String → String) :
    List (DidlObject → DidlObject) :=
  [attempt_datastructure_upgrade descFromUri]

/-- A sample constructor capability for a registered class, standing for a
`from_element` that builds a fixed object. -/
def ctorX : Ctor := fun _ => .ok ⟨"X", none, [], "i", "d", none⟩

/-- The item of the spec's end-to-end upgrade test: a `DidlMusicTrack` with
title "Song A" and sole resource URI `x-sonos-http://abc123.mp3`. -/
def songA : DidlObject :=
  ⟨"DidlMusicTrack", some "Song A", [⟨"x-sonos-http://abc123.mp3", "pi"⟩],
    "id0", "d0", none⟩

/-- One loop iteration of `from_didl_string` neither raises nor skips the
element: the tag selects the construction branch and `buildChild`
succeeds. -/
def childOk (reg : Registry) (ups : List (DidlObject → DidlObject))
    (e : Element) : Bool :=
  classifyItemish e &&
    match buildChild reg ups e with
    | .ok _ => true
    | .error _ => false

theorem runUpgrades_eq_foldl (l : List (DidlObject → DidlObject))
    (item : DidlObject) :
    runUpgrades l item = l.foldl (fun o f => f o) item := by
  induction l generalizing item with
  | nil => rfl
  | cons f fs ih => simpa [runUpgrades] using ih (f item)

theorem from_didl_cons_illegal (reg : Registry)
    (ups : List (DidlObject → DidlObject)) (e : Element) (rest : List Element)
    (h : classifyItemish e = false) :
    from_didl_list reg ups (e :: rest) =
      .error (.didlMetadataError ("Illegal child of DIDL element: <" ++ e.tag ++ ">")) := by
  simp [from_didl_list, h]

theorem from_didl_cons_buildErr (reg : Registry)
    (ups : List (DidlObject → DidlObject)) (e : Element) (rest : List Element)
    (er : PyErr) (hc : classifyItemish e = true)
    (hb : buildChild reg ups e = .error er) :
    from_didl_list reg ups (e :: rest) = .error er := by
  simp [from_didl_list, hc, hb]

theorem from_didl_cons_ok (reg : Registry)
    (ups : List (DidlObject → DidlObject)) (e : Element) (rest : List Element)
    (item : DidlObject) (objs : List DidlObject)
    (hc : classifyItemish e = true) (hb : buildChild reg ups e = .ok item)
    (hr : from_didl_list reg ups rest = .ok objs) :
    from_didl_list reg ups (e :: rest) = .ok (item :: objs) := by
  simp [from_didl_list, hc, hb, hr]

/-- A prefix of children that all process successfully only prepends objects:
an error raised further right still aborts the whole parse. -/
theorem from_didl_pre_ok_error (reg : Registry)
    (ups : List (DidlObject → DidlObject)) :
    ∀ (pre rest : List Element) (e : PyErr),
      (∀ x ∈ pre, childOk reg ups x = true) →
      from_didl_list reg ups rest = .error e →
      from_didl_list reg ups (pre ++ rest) = .error e := by
  intro pre
  induction pre with
  | nil => intro rest e _ h; simpa using h
  | cons x xs ih =>
    intro rest e hpre herr
    have hx : childOk reg ups x = true := hpre x (by simp)
    have hxs : ∀ y ∈ xs, childOk reg ups y = true := fun y hy =>
      hpre y (by simp [hy])
    have hc : classifyItemish x = true := (Bool.and_eq_true_iff.mp hx).1
    have hm := (Bool.and_eq_true_iff.mp hx).2
    cases hb : buildChild reg ups x with
    | error er => rw [hb] at hm; exact absurd hm (by simp)
    | ok item =>
      have htail := ih rest e hxs herr
      show from_didl_list reg ups (x :: (xs ++ rest)) = .error e
      simp [from_didl_list, hc, hb, htail]

/-- A child on which the loop body fails dooms the document: whenever such a
child is a member, the parse returns an error (never a partial list). -/
theorem from_didl_mem_fail_error (reg : Registry)
    (ups : List (DidlObject → DidlObject)) :
    ∀ (children : List Element) (e : Element), e ∈ children →
      childOk reg ups e = false →
      ∃ er, from_didl_list reg ups children = .error er := by
  intro children
  induction children with
  | nil => intro e he; exact absurd he (List.not_mem_nil e)
  | cons x xs ih =>
    intro e he hbad
    cases hcx : classifyItemish x with
    | false =>
      exact ⟨_, from_didl_cons_illegal reg ups x xs hcx⟩
    | true =>
      cases hb : buildChild reg ups x with
      | error er => exact ⟨er, from_didl_cons_buildErr reg ups x xs er hcx hb⟩
      | ok item =>
        have hex : e ∈ xs := by
          rcases List.mem_cons.mp he with rfl | hmem
          · exact absurd hbad (by simp [childOk, hcx, hb])
          · exact hmem
        obtain ⟨er, her⟩ := ih e hex hbad
        exact ⟨er, by simp [from_didl_list, hcx, hb, her]⟩

/-- An element whose `upnp:class` text does not resolve makes `buildChild`
raise the unknown-class error carrying the stripped identifier. -/
theorem buildChild_unknown (reg : Registry)
    (ups : List (DidlObject → DidlObject)) (elt : Element) (raw : String)
    (hcls : elt.upnpClass = some raw)
    (hmiss : dictLookup reg (stripUnofficial raw) = none) :
    buildChild reg ups elt =
      .error (.didlMetadataError ("Unknown UPnP class: " ++ stripUnofficial raw)) := by
  simp [buildChild, hcls, hmiss]

/-! ### The claims -/

/-- C1 (counterexample): a top-level `desc` child is NOT accepted — the
parse of a document whose first child is `<desc>` (followed by a perfectly
parseable item) aborts with `DIDLMetadataError("Illegal child of DIDL
element: <desc>")` instead of skipping the element and continuing, so the
claim that a desc child never aborts the parse is false on the code. -/
theorem C1_counterexample :
    from_didl_list [("object.item", ctorX)] []
        [⟨"desc", none⟩, ⟨"item", some "object.item"⟩] =
      .error (.didlMetadataError "Illegal child of DIDL element: <desc>") :=
  rfl

/-- C1 (amended): when the document parser encounters a top-level child
whose tag is `desc`, it rejects it like any other tag that ends with
neither `item` nor `container`: provided the preceding children process
successfully, the whole parse aborts with `DIDLMetadataError("Illegal
child of DIDL element: <desc>")`, producing no entry and no result list. -/
theorem C1_desc_child_aborts (reg : Registry)
    (ups : List (DidlObject → DidlObject)) (pre rest : List Element)
    (e : Element) (htag : e.tag = "desc")
    (hpre : ∀ x ∈ pre, childOk reg ups x = true) :
    from_didl_list reg ups (pre ++ e :: rest) =
      .error (.didlMetadataError "Illegal child of DIDL element: <desc>") := by
  have hclass : classifyItemish e = false := by
    unfold classifyItemish
    rw [htag]
    decide
  have h1 := from_didl_cons_illegal reg ups e rest hclass
  rw [htag] at h1
  exact from_didl_pre_ok_error reg ups pre (e :: rest) _ hpre h1

/-- C1 (witness): the amended claim at a concrete input — a document whose
only child is `<desc>` aborts with the illegal-child error. -/
theorem C1_desc_child_aborts_witness :
    from_didl_list [] [] [⟨"desc", none⟩] =
      .error (.didlMetadataError "Illegal child of DIDL element: <desc>") :=
  C1_desc_child_aborts [] [] [] [] ⟨"desc", none⟩ rfl (by simp)

/-- C2 (counterexample): upgrading the spec's end-to-end test item (a
`DidlMusicTrack` titled "Song A" with sole resource URI
`x-sonos-http://abc123.mp3`) yields the item identifier `11111111`, not the
claimed `11111111/abc123`: `urlparse` puts `abc123.mp3` in the
network-location component, leaving an empty path, so the derived id is the
bare 8-digit constant. -/
theorem C2_counterexample :
    (attempt_datastructure_upgrade (fun u => u) songA).item_id = "11111111" ∧
    (attempt_datastructure_upgrade (fun u => u) songA).item_id ≠ "11111111/abc123" := by
  exact ⟨rfl, by decide⟩

/-- C2 (amended): for an item of variant `DidlMusicTrack` with title
"Song A" and sole resource URI `x-sonos-http://abc123.mp3`, the upgrade
returns an object of the mapped service variant `MediaMetadataTrack` whose
item identifier is `11111111` (the URI's path component is empty because
`abc123.mp3` parses as the authority, so the constant prefix is all that
remains), whose title equals the original title and whose resource
sequence equals the original resource sequence — for every descriptor
helper and whatever the item's other fields were. -/
theorem C2_upgrade_musictrack (descFromUri : String → String)
    (pinfo iid d : String) (u : Option String) :
    attempt_datastructure_upgrade descFromUri
        ⟨"DidlMusicTrack", some "Song A",
          [⟨"x-sonos-http://abc123.mp3", pinfo⟩], iid, d, u⟩ =
      ⟨"MediaMetadataTrack", some "Song A",
        [⟨"x-sonos-http://abc123.mp3", pinfo⟩], "11111111",
        descFromUri "x-sonos-http://abc123.mp3",
        some "x-sonos-http://abc123.mp3"⟩ :=
  rfl

/-- C2 (witness): the amended claim evaluated at the fully concrete item
`songA` with the identity descriptor helper. -/
theorem C2_upgrade_musictrack_witness :
    attempt_datastructure_upgrade (fun u => u) songA =
      ⟨"MediaMetadataTrack", some "Song A",
        [⟨"x-sonos-http://abc123.mp3", "pi"⟩], "11111111",
        "x-sonos-http://abc123.mp3", some "x-sonos-http://abc123.mp3"⟩ :=
  C2_upgrade_musictrack (fun u => u) "pi" "id0" "d0" none

/-- C3: resolution of a raw class identifier first strips the unofficial
`.#` suffix and then performs exact lookup; an identifier without the
marker is looked up unchanged, and the vendor-suffixed identifier
`object.item.audioItem.musicTrack.#vendorX` resolves to exactly the same
registry entry as `object.item.audioItem.musicTrack`, in every registry. -/
theorem C3_suffix_strip_resolution (reg : Registry) (raw : String) :
    resolveClass reg raw = dictLookup reg (stripUnofficial raw) ∧
    (strFind raw ".#" = none → resolveClass reg raw = dictLookup reg raw) ∧
    resolveClass reg "object.item.audioItem.musicTrack.#vendorX" =
      resolveClass reg "object.item.audioItem.musicTrack" := by
  refine ⟨rfl, ?_, ?_⟩
  · intro h
    unfold resolveClass stripUnofficial
    rw [h]
  · unfold resolveClass
    have h1 : stripUnofficial "object.item.audioItem.musicTrack.#vendorX" =
        "object.item.audioItem.musicTrack" := by decide
    have h2 : stripUnofficial "object.item.audioItem.musicTrack" =
        "object.item.audioItem.musicTrack" := by decide
    rw [h1, h2]

/-- C3 (witness): the resolution facts at a concrete registry and concrete
identifiers, the marker-free hypothesis discharged by computation. -/
theorem C3_suffix_strip_resolution_witness :
    resolveClass [("object.container", ctorX)] "object.container" =
      dictLookup [("object.container", ctorX)] "object.container" ∧
    resolveClass [("object.container", ctorX)]
        "object.item.audioItem.musicTrack.#vendorX" =
      resolveClass [("object.container", ctorX)]
        "object.item.audioItem.musicTrack" :=
  ⟨(C3_suffix_strip_resolution [("object.container", ctorX)]
      "object.container").2.1 (by decide),
   (C3_suffix_strip_resolution [("object.container", ctorX)] "irrelevant").2.2⟩

/-- C4 (counterexample): a document that contains an item with the
unresolvable class `object.item.audioItem.bogus` does not necessarily fail
with the unknown-class error — when an illegal `<foo>` child precedes it,
the parse fails with the illegal-child error instead, which is a different
error from the unknown-class one the claim requires. -/
theorem C4_counterexample :
    from_didl_list [] []
        [⟨"foo", none⟩, ⟨"item", some "object.item.audioItem.bogus"⟩] =
      .error (.didlMetadataError "Illegal child of DIDL element: <foo>") ∧
    PyErr.didlMetadataError "Illegal child of DIDL element: <foo>" ≠
      PyErr.didlMetadataError "Unknown UPnP class: object.item.audioItem.bogus" :=
  ⟨rfl, by decide⟩

/-- C4 (amended): for every document containing an item or container whose
class identifier, after suffix stripping, is absent from the class
registry, the parse fails and no (partial) result list is ever returned;
and the error is the `DIDLMetadataError("Unknown UPnP class: ...")`
carrying the stripped identifier whenever every preceding top-level child
processes successfully (an earlier failing child raises its own error
first). -/
theorem C4_unknown_class_aborts (reg : Registry)
    (ups : List (DidlObject → DidlObject))
    (children pre rest : List Element) (elt : Element) (raw : String)
    (hitem : classifyItemish elt = true)
    (hcls : elt.upnpClass = some raw)
    (hmiss : dictLookup reg (stripUnofficial raw) = none) :
    (elt ∈ children → ∀ objs, from_didl_list reg ups children ≠ .ok objs) ∧
    ((∀ x ∈ pre, childOk reg ups x = true) →
      from_didl_list reg ups (pre ++ elt :: rest) =
        .error (.didlMetadataError ("Unknown UPnP class: " ++ stripUnofficial raw))) := by
  have hb := buildChild_unknown reg ups elt raw hcls hmiss
  constructor
  · intro hmem objs hok
    have hbad : childOk reg ups elt = false := by simp [childOk, hb]
    obtain ⟨er, her⟩ := from_didl_mem_fail_error reg ups children elt hmem hbad
    rw [her] at hok
    exact Except.noConfusion hok
  · intro hpre
    exact from_didl_pre_ok_error reg ups pre (elt :: rest) _ hpre
      (from_didl_cons_buildErr reg ups elt rest _ hitem hb)

/-- C4 (witness): the amended claim at the spec's own test input — a
document whose only child is an item of class `object.item.audioItem.bogus`
against an empty registry fails with the unknown-class error. -/
theorem C4_unknown_class_aborts_witness :
    from_didl_list [] [] [⟨"item", some "object.item.audioItem.bogus"⟩] =
      .error (.didlMetadataError
        ("Unknown UPnP class: " ++ stripUnofficial "object.item.audioItem.bogus")) :=
  (C4_unknown_class_aborts [] []
      [⟨"item", some "object.item.audioItem.bogus"⟩] [] []
      ⟨"item", some "object.item.audioItem.bogus"⟩
      "object.item.audioItem.bogus" (by decide) rfl rfl).2 (by simp)

/-- C5 (counterexample): a document whose only top-level child has the tag
`notanitem` — which is neither `item`, `container` nor `desc` — does not
fail with the illegal-child error: because the tag merely ends with
`item`, the element is constructed as an item and the parse succeeds. -/
theorem C5_counterexample :
    from_didl_list [("object.x", ctorX)] [] [⟨"notanitem", some "object.x"⟩] =
      .ok [⟨"X", none, [], "i", "d", none⟩] :=
  rfl

/-- C5 (amended): for every document with a top-level child whose tag ends
with neither `item` nor `container` (classification is by suffix, so tags
such as `notanitem` do NOT fall in this set, while `foo` and `desc` do),
the parse never returns a (partial) result list; and provided the
preceding children process successfully it fails with
`DIDLMetadataError("Illegal child of DIDL element: <tag>")` naming the
offending tag. -/
theorem C5_illegal_child_aborts (reg : Registry)
    (ups : List (DidlObject → DidlObject))
    (children pre rest : List Element) (e : Element)
    (hnot : classifyItemish e = false) :
    (e ∈ children → ∀ objs, from_didl_list reg ups children ≠ .ok objs) ∧
    ((∀ x ∈ pre, childOk reg ups x = true) →
      from_didl_list reg ups (pre ++ e :: rest) =
        .error (.didlMetadataError ("Illegal child of DIDL element: <" ++ e.tag ++ ">"))) := by
  constructor
  · intro hmem objs hok
    have hbad : childOk reg ups e = false := by simp [childOk, hnot]
    obtain ⟨er, her⟩ := from_didl_mem_fail_error reg ups children e hmem hbad
    rw [her] at hok
    exact Except.noConfusion hok
  · intro hpre
    exact from_didl_pre_ok_error reg ups pre (e :: rest) _ hpre
      (from_didl_cons_illegal reg ups e rest hnot)

/-- C5 (witness): the amended claim at the spec's own test input — a
document with a valid item followed by `<foo>` fails with the
illegal-child error naming `foo`, despite the valid child before it. -/
theorem C5_illegal_child_aborts_witness :
    from_didl_list [("object.x", ctorX)] []
        [⟨"item", some "object.x"⟩, ⟨"foo", none⟩] =
      .error (.didlMetadataError "Illegal child of DIDL element: <foo>") :=
  (C5_illegal_child_aborts [("object.x", ctorX)] []
      [⟨"item", some "object.x"⟩, ⟨"foo", none⟩]
      [⟨"item", some "object.x"⟩] [] ⟨"foo", none⟩ (by decide)).2
    (by intro x hx; simp at hx; subst hx; rfl)

/-- C6: when a parse succeeds, the result sequence has exactly one
constructed object per top-level child, in the same relative order (a
successful parse also forces every child to be an item/container, so the
lengths agree). -/
theorem C6_order_preservation (reg : Registry)
    (ups : List (DidlObject → DidlObject)) (children : List Element)
    (objs : List DidlObject)
    (h : from_didl_list reg ups children = .ok objs) :
    objs.length = children.length ∧
    List.Forall₂ (fun e o => classifyItemish e = true ∧
      buildChild reg ups e = .ok o) children objs := by
  suffices hf : List.Forall₂ (fun e o => classifyItemish e = true ∧
      buildChild reg ups e = .ok o) children objs from ⟨hf.length_eq.symm, hf⟩
  induction children generalizing objs with
  | nil =>
    cases h
    exact .nil
  | cons x xs ih =>
    rw [from_didl_list] at h
    cases hcx : classifyItemish x with
    | false => rw [hcx] at h; simp at h
    | true =>
      rw [hcx] at h
      simp only [if_true] at h
      cases hb : buildChild reg ups x with
      | error er => rw [hb] at h; simp at h
      | ok item =>
        rw [hb] at h
        cases hr : from_didl_list reg ups xs with
        | error er => rw [hr] at h; simp at h
        | ok items =>
          rw [hr] at h
          cases h
          exact .cons ⟨hcx, hb⟩ (ih items hr)

/-- C6 (witness): a concrete two-child document parses to a two-object
list satisfying the pointwise order correspondence. -/
theorem C6_order_preservation_witness :
    ([⟨"X", none, [], "i", "d", none⟩, ⟨"X", none, [], "i", "d", none⟩] :
        List DidlObject).length =
      ([⟨"item", some "object.x"⟩, ⟨"{ns}container", some "object.x"⟩] :
        List Element).length ∧
    List.Forall₂ (fun e o => classifyItemish e = true ∧
        buildChild [("object.x", ctorX)] [] e = .ok o)
      [⟨"item", some "object.x"⟩, ⟨"{ns}container", some "object.x"⟩]
      [⟨"X", none, [], "i", "d", none⟩, ⟨"X", none, [], "i", "d", none⟩] :=
  C6_order_preservation [("object.x", ctorX)] []
    [⟨"item", some "object.x"⟩, ⟨"{ns}container", some "object.x"⟩]
    [⟨"X", none, [], "i", "d", none⟩, ⟨"X", none, [], "i", "d", none⟩] rfl

/-- C7: the upgrade chain is a left-fold in registration order — the loop
`for upgrade in _UPGRADE_FUNCTIONS: item = upgrade(item)` equals
`List.foldl`, each registered transformation applied exactly once to the
possibly-already-replaced object — and the fully upgraded object is the
one the construction branch produces (and hence, per C6, the one appended
to the result list). -/
theorem C7_upgrade_left_fold (ups : List (DidlObject → DidlObject)) :
    (∀ item, runUpgrades ups item = ups.foldl (fun o f => f o) item) ∧
    (∀ (reg : Registry) (elt : Element) (raw : String) (cls : Ctor)
        (item : DidlObject),
      elt.upnpClass = some raw →
      dictLookup reg (stripUnofficial raw) = some cls →
      cls elt = .ok item →
      buildChild reg ups elt = .ok (runUpgrades ups item)) := by
  constructor
  · intro item
    exact runUpgrades_eq_foldl ups item
  · intro reg elt raw cls item h1 h2 h3
    simp [buildChild, h1, h2, h3]

/-- C7 (witness): the fold identity and the construction-then-upgrade fact
at the registry state the module import produces (`_UPGRADE_FUNCTIONS`
holding exactly `attempt_datastructure_upgrade`). -/
theorem C7_upgrade_left_fold_witness :
    runUpgrades (UPGRADE_FUNCTIONS (fun u => u)) songA =
      (UPGRADE_FUNCTIONS (fun u => u)).foldl (fun o f => f o) songA ∧
    buildChild [("object.x", ctorX)] (UPGRADE_FUNCTIONS (fun u => u))
        ⟨"item", some "object.x"⟩ =
      .ok (runUpgrades (UPGRADE_FUNCTIONS (fun u => u))
        ⟨"X", none, [], "i", "d", none⟩) :=
  ⟨(C7_upgrade_left_fold (UPGRADE_FUNCTIONS (fun u => u))).1 songA,
   (C7_upgrade_left_fold (UPGRADE_FUNCTIONS (fun u => u))).2
     [("object.x", ctorX)] ⟨"item", some "object.x"⟩ "object.x" ctorX
     ⟨"X", none, [], "i", "d", none⟩ rfl rfl rfl⟩

/-- C8: an item whose first resource URI matches the service-scheme test
but whose variant name has no entry in `DIDL_NAME_TO_QUALIFIED_MS_NAME` is
returned unchanged by `attempt_datastructure_upgrade` (the `KeyError` is
caught and logged as a warning; no exception escapes, which the total
return type of the embedding reflects). -/
theorem C8_missing_mapping_entry (descFromUri : String → String)
    (item : DidlObject) (r : DidlResource) (rs : List DidlResource)
    (hres : item.resources = r :: rs)
    (hmatch : strStartsWith r.uri "x-sonos-http" = true)
    (hmiss : dictLookup DIDL_NAME_TO_QUALIFIED_MS_NAME item.className = none) :
    attempt_datastructure_upgrade descFromUri item = item := by
  simp [attempt_datastructure_upgrade, hres, hmatch, hmiss]

/-- C8 (witness): a `DidlAlbum` (absent from the mapping table) whose
resource URI matches the service scheme passes through unchanged. -/
theorem C8_missing_mapping_entry_witness :
    attempt_datastructure_upgrade (fun u => u)
        ⟨"DidlAlbum", some "A", [⟨"x-sonos-http://a/b.mp3", "p"⟩], "i", "d", none⟩ =
      ⟨"DidlAlbum", some "A", [⟨"x-sonos-http://a/b.mp3", "p"⟩], "i", "d", none⟩ :=
  C8_missing_mapping_entry (fun u => u) _ ⟨"x-sonos-http://a/b.mp3", "p"⟩ []
    rfl (by decide) rfl

/-- C9: `attempt_datastructure_upgrade` is the identity on every item with
zero resources and on every item whose first resource URI does not start
with `x-sonos-http`, for every descriptor helper, with no error. -/
theorem C9_upgrade_identity_nonmatching (descFromUri : String → String)
    (item : DidlObject) :
    (item.resources = [] →
      attempt_datastructure_upgrade descFromUri item = item) ∧
    (∀ r rs, item.resources = r :: rs →
      strStartsWith r.uri "x-sonos-http" = false →
      attempt_datastructure_upgrade descFromUri item = item) := by
  constructor
  · intro h
    simp [attempt_datastructure_upgrade, h]
  · intro r rs h hn
    simp [attempt_datastructure_upgrade, h, hn]

/-- C9 (witness): both short-circuits at concrete items — no resources,
and a local-library `http` resource. -/
theorem C9_upgrade_identity_nonmatching_witness :
    attempt_datastructure_upgrade (fun u => u)
        ⟨"DidlMusicTrack", some "T", [], "i", "d", none⟩ =
      ⟨"DidlMusicTrack", some "T", [], "i", "d", none⟩ ∧
    attempt_datastructure_upgrade (fun u => u)
        ⟨"DidlMusicTrack", some "T", [⟨"http://a/b.mp3", "p"⟩], "i", "d", none⟩ =
      ⟨"DidlMusicTrack", some "T", [⟨"http://a/b.mp3", "p"⟩], "i", "d", none⟩ :=
  ⟨(C9_upgrade_identity_nonmatching (fun u => u)
      ⟨"DidlMusicTrack", some "T", [], "i", "d", none⟩).1 rfl,
   (C9_upgrade_identity_nonmatching (fun u => u)
      ⟨"DidlMusicTrack", some "T", [⟨"http://a/b.mp3", "p"⟩], "i", "d", none⟩).2
     ⟨"http://a/b.mp3", "p"⟩ [] rfl (by decide)⟩

/-- C10: the parser classifies a top-level child by string suffix, not
exact tag equality — the construction branch is taken exactly when the tag
ends with `item` or `container` (so a namespace-qualified `{ns}item`
matches, and so does the unrelated `notanitem`, while `desc` does not),
and every element failing both suffix tests makes the parse raise the
illegal-child error naming its tag. -/
theorem C10_suffix_classification (reg : Registry)
    (ups : List (DidlObject → DidlObject)) (e : Element)
    (rest : List Element) :
    (classifyItemish e = true ↔
      ("item".data <:+ e.tag.data ∨ "container".data <:+ e.tag.data)) ∧
    (classifyItemish e = false →
      from_didl_list reg ups (e :: rest) =
        .error (.didlMetadataError ("Illegal child of DIDL element: <" ++ e.tag ++ ">"))) ∧
    (∀ item objs, classifyItemish e = true →
      buildChild reg ups e = .ok item →
      from_didl_list reg ups rest = .ok objs →
      from_didl_list reg ups (e :: rest) = .ok (item :: objs)) ∧
    classifyItemish ⟨"notanitem", none⟩ = true ∧
    classifyItemish ⟨"{ns}item", none⟩ = true ∧
    classifyItemish ⟨"desc", none⟩ = false := by
  refine ⟨?_, ?_, ?_, by decide, by decide, by decide⟩
  · unfold classifyItemish strEndsWith
    rw [Bool.or_eq_true, List.isSuffixOf_iff_suffix, List.isSuffixOf_iff_suffix]
  · intro h
    exact from_didl_cons_illegal reg ups e rest h
  · intro item objs hc hb hr
    exact from_didl_cons_ok reg ups e rest item objs hc hb hr

/-- C10 (witness): a namespace-qualified `{ns}item` child is constructed
as an item — the concrete parse succeeds through the suffix test. -/
theorem C10_suffix_classification_witness :
    from_didl_list [("object.x", ctorX)] [] [⟨"{ns}item", some "object.x"⟩] =
      .ok [⟨"X", none, [], "i", "d", none⟩] :=
  (C10_suffix_classification [("object.x", ctorX)] []
      ⟨"{ns}item", some "object.x"⟩ []).2.2.1
    ⟨"X", none, [], "i", "d", none⟩ [] (by decide) rfl rfl

end SoCo
